import Mathlib

/-!
Shallow embedding of the projectivity-background-source generator
(`src/main.py`), covering the image-composition layout engine: font
resolution, aspect-fill cropping, the shrink-to-fit title search, the
vertical-cursor clamp, genre normalization, manifest generation, the
actionUrl derivation and the service-table fallback.

External collaborators (PIL font metrics, `textwrap.wrap`) are modelled as
function parameters; everything else is translated directly from the source.
Machine floats appear only in the aspect-ratio comparison `w/h > 3840/2160`,
modelled as the exact rational comparison `9*w > 16*h`, which agrees with
the Python float comparison for all image dimensions below 10^15 pixels.
-/

namespace Projectivity

/-- Canvas width in pixels (`CANVAS_W = 3840`, main.py line 35). -/
def CANVAS_W : Nat := 3840

/-- Canvas height in pixels (`CANVAS_H = 2160`, main.py line 36). -/
def CANVAS_H : Nat := 2160

/-- Width budget for the title block (`MAX_TEXT_W = int(CANVAS_W * 0.8)`, line 151). -/
def MAX_TEXT_W : Nat := 3072

/-- Height budget for the title block (`MAX_TITLE_H = 500`, line 151). -/
def MAX_TITLE_H : Nat := 500

/-- Initial vertical cursor for the title block (`current_y = 480`, line 150). -/
def INITIAL_Y : Nat := 480

/-- Default catalog base URL (`TMDB_BASE_URL`, line 17). -/
def TMDB_BASE_URL : String := "https://api.themoviedb.org/3"

/-- Public base path used for manifest links (`BASE_URL_FOR_API`, line 32). -/
def BASE_URL_FOR_API : String := "https://makeran218.github.io/projectivity-background-source"

/-- Output directory name (`BACKGROUND_DIR`, line 31). -/
def BACKGROUND_DIR : String := "tmdb_backgrounds"

/-! ## Font resolver (`MediaGenerator.get_font`, lines 83-88) -/

/-- The three font faces the script can load (lines 27-29). -/
inductive FontFace
  | titleFace
  | bodyFace
  | fallbackFace
  deriving DecidableEq, Repr

/-- The character test in `get_font`: `ord(c) > 0x4e00` (line 84). -/
def aboveCjkThreshold (c : Char) : Bool := c.toNat > 0x4e00

/-- Embedding of `get_font(size, text, is_title)` (lines 83-88):
if any character of `text` has code point above `0x4e00` and the fallback
font file exists, the fallback face is returned; otherwise the primary face
selected by `is_title`. The size is passed through unchanged. The Python
generator `any(ord(c) > 0x4e00 for c in text)` iterates the characters of
the string, modelled on the character list. -/
def get_font (fallbackAvailable : Bool) (size : Nat) (text : String) (is_title : Bool) :
    FontFace × Nat :=
  if text.data.any aboveCjkThreshold && fallbackAvailable then
    (FontFace.fallbackFace, size)
  else
    (if is_title then (FontFace.titleFace, size) else (FontFace.bodyFace, size))

/-- Modelled from the spec: membership of a character in the Han, Hiragana,
Katakana, or Hangul Unicode blocks, the script-coverage criterion the spec
gives for the font resolver (spec section 4.1). Hiragana U+3040-U+309F,
Katakana U+30A0-U+30FF, Hangul Jamo U+1100-U+11FF, Hangul syllables
U+AC00-U+D7AF, Han U+4E00-U+9FFF. -/
def inCjkBlocks (c : Char) : Bool :=
  (0x4e00 ≤ c.toNat && c.toNat ≤ 0x9fff) ||
  (0x3040 ≤ c.toNat && c.toNat ≤ 0x309f) ||
  (0x30a0 ≤ c.toNat && c.toNat ≤ 0x30ff) ||
  (0x1100 ≤ c.toNat && c.toNat ≤ 0x11ff) ||
  (0xac00 ≤ c.toNat && c.toNat ≤ 0xd7af)

/-! ## Aspect-fill crop (`generate_image`, lines 124-132) -/

/-- A crop box in PIL order: left, upper, right, lower. -/
structure CropBox where
  left : Nat
  upper : Nat
  right : Nat
  lower : Nat
  deriving DecidableEq, Repr

/-- Embedding of the aspect-fill crop (lines 124-131) for a source image of
width `w` and height `h`. The Python float comparison
`image.width / image.height > CANVAS_W / CANVAS_H` is modelled by the exact
rational comparison `9 * w > 16 * h`; `new_w = int(target_ratio * h)` is
`16 * h / 9` and `new_h = int(w / target_ratio)` is `9 * w / 16` in floored
Nat division, both written inline. -/
def aspectCrop (w h : Nat) : CropBox :=
  if 9 * w > 16 * h then
    ⟨(w - 16 * h / 9) / 2, 0, (w + 16 * h / 9) / 2, h⟩
  else
    ⟨0, (h - 9 * w / 16) / 2, w, (h + 9 * w / 16) / 2⟩

/-- The dimensions of the composed base canvas: the crop is followed by
`image.resize((CANVAS_W, CANVAS_H), Image.LANCZOS)` (line 132), so the
output dimensions are always exactly the canvas dimensions. -/
def composeBaseSize (w h : Nat) : Nat × Nat :=
  let _ := aspectCrop w h
  (CANVAS_W, CANVAS_H)

/-- Margin cropped off the left of the source (`(w - new_w)//2`). -/
def leftMargin (w h : Nat) : Nat := (aspectCrop w h).left

/-- Margin cropped off the right of the source (`w - (w + new_w)//2`). -/
def rightMargin (w h : Nat) : Nat := w - (aspectCrop w h).right

/-- Margin cropped off the top of the source. -/
def topMargin (w h : Nat) : Nat := (aspectCrop w h).upper

/-- Margin cropped off the bottom of the source. -/
def bottomMargin (w h : Nat) : Nat := h - (aspectCrop w h).lower

/-! ## Shrink-to-fit title search (`generate_image`, lines 164-185)

PIL's `draw.textbbox` and Python's `textwrap.wrap` are external
collaborators; they are passed in as parameters `measure` (font size and
line to pixel width and height) and `wrap` (character-width budget and text
to wrapped lines). The loop itself is translated from the source. -/

/-- One measured wrapped line: text, pixel width, pixel height
(the `line_data` entries of line 177). -/
structure LineData where
  line : String
  w : Nat
  h : Nat
  deriving DecidableEq, Repr

/-- Result of the title text-fallback path. `drawn` records the accepted
font size and measured lines; `notDrawn` means the while loop exhausted all
sizes down to the floor without drawing anything; `wrapError` models the
`ValueError` that `max([])` raises on line 178 when `textwrap.wrap`
returned no lines. -/
inductive TitleFit
  | drawn (size : Nat) (lines : List LineData)
  | notDrawn
  | wrapError
  deriving DecidableEq, Repr

/-- The character-width budget of line 170:
`(25 if target_font_size > 250 else 40) if not is_cjk else 15`. -/
def wrapWidth (is_cjk : Bool) (size : Nat) : Nat :=
  if is_cjk then 15 else if size > 250 then 25 else 40

/-- Measure the wrapped lines at a given size (lines 173-177). -/
def measureLines (measure : Nat → String → Nat × Nat) (size : Nat)
    (lines : List String) : List LineData :=
  lines.map (fun l => ⟨l, (measure size l).1, (measure size l).2⟩)

/-- Total block height: each line height plus the fixed 20px inter-line
spacing (`total_h += h + 20`, line 176). -/
def totalHeight (ld : List LineData) : Nat :=
  (ld.map (fun d => d.h + 20)).sum

/-- Widest measured line (`max([d[1] for d in line_data])`, line 178);
only evaluated on nonempty `ld` in the loop below. -/
def maxLineWidth (ld : List LineData) : Nat :=
  (ld.map (fun d => d.w)).foldr max 0

/-- The wrapped and measured candidate lines at one font size
(lines 169-177: resolve the font, wrap at the size-dependent budget,
measure each line). -/
def candidateLines (measure : Nat → String → Nat × Nat) (wrap : Nat → String → List String)
    (is_cjk : Bool) (display_title : String) (size : Nat) : List LineData :=
  measureLines measure size (wrap (wrapWidth is_cjk size) display_title)

/-- The two budget comparisons of line 178:
`max([d[1] for d in line_data]) <= MAX_TEXT_W and total_h <= MAX_TITLE_H`. -/
def budgetsOk (ld : List LineData) : Bool :=
  maxLineWidth ld ≤ MAX_TEXT_W && totalHeight ld ≤ MAX_TITLE_H

/-- The acceptance test at one candidate size: the wrapped lines are
nonempty (otherwise line 178 raises instead of deciding) and both budgets
of line 178 hold. -/
def fitsAt (measure : Nat → String → Nat × Nat) (wrap : Nat → String → List String)
    (is_cjk : Bool) (display_title : String) (size : Nat) : Bool :=
  !(candidateLines measure wrap is_cjk display_title size).isEmpty &&
    budgetsOk (candidateLines measure wrap is_cjk display_title size)

/-- Embedding of the while loop of lines 168-185:
`while target_font_size > 80`, test the candidate, on success draw and
break, otherwise `target_font_size -= 20`. When the wrapped line list is
empty the `max([])` call of line 178 raises, modelled as `wrapError`. When
the loop condition fails nothing has been drawn. -/
def shrinkLoop (measure : Nat → String → Nat × Nat) (wrap : Nat → String → List String)
    (is_cjk : Bool) (display_title : String) (size : Nat) : TitleFit :=
  if h80 : size > 80 then
    if (candidateLines measure wrap is_cjk display_title size).isEmpty then
      TitleFit.wrapError
    else if budgetsOk (candidateLines measure wrap is_cjk display_title size) then
      TitleFit.drawn size (candidateLines measure wrap is_cjk display_title size)
    else
      shrinkLoop measure wrap is_cjk display_title (size - 20)
  else
    TitleFit.notDrawn
termination_by size
decreasing_by omega

/-- Fuel-indexed version of the same while loop: `none` means the fuel ran
out with the loop still running. Used to state that the source's unbounded
while loop terminates. -/
def shrinkLoopFuel (measure : Nat → String → Nat × Nat) (wrap : Nat → String → List String)
    (is_cjk : Bool) (display_title : String) : Nat → Nat → Option TitleFit
  | 0, _ => none
  | fuel + 1, size =>
    if size > 80 then
      if (candidateLines measure wrap is_cjk display_title size).isEmpty then
        some TitleFit.wrapError
      else if budgetsOk (candidateLines measure wrap is_cjk display_title size) then
        some (TitleFit.drawn size (candidateLines measure wrap is_cjk display_title size))
      else
        shrinkLoopFuel measure wrap is_cjk display_title fuel (size - 20)
    else
      some TitleFit.notDrawn

/-- The CJK test applied to the title on line 165
(`any(ord(c) > 0x4e00 for c in title)`). -/
def is_cjk_of (title : String) : Bool := title.data.any aboveCjkThreshold

/-- Python `str.upper`, modelled character-wise (ASCII uppercasing); the
titles the claims evaluate are handled faithfully by this model. -/
def pyUpper (s : String) : String := String.mk (s.data.map Char.toUpper)

/-- The display title of line 166: uppercased unless the title contains a
character above the CJK threshold. -/
def display_title_of (title : String) : String :=
  if is_cjk_of title then title else pyUpper title

/-- The starting font size of line 167: 350 for non-CJK titles, 250
otherwise. -/
def initial_font_size (title : String) : Nat :=
  if is_cjk_of title then 250 else 350

/-- The whole text-fallback title path (lines 164-185) as invoked on a
catalog title. -/
def layoutTitleText (measure : Nat → String → Nat × Nat)
    (wrap : Nat → String → List String) (title : String) : TitleFit :=
  shrinkLoop measure wrap (is_cjk_of title) (display_title_of title)
    (initial_font_size title)

/-- Whether the text-fallback path drew the title. -/
def wasDrawn : TitleFit → Bool
  | TitleFit.drawn _ _ => true
  | TitleFit.notDrawn => false
  | TitleFit.wrapError => false

/-- Vertical cursor after the title block and the clamp of line 187:
`current_y = max(current_y, 480 + MAX_TITLE_H + 20)`. The argument is the
cursor value produced by whichever title path ran (logo path advance, text
path advance, or 480 unchanged when neither drew anything). -/
def infoLineStartY (y_after_title : Nat) : Nat :=
  max y_after_title (INITIAL_Y + MAX_TITLE_H + 20)

/-! ## Genre normalization (lines 52-60 and line 115) -/

/-- A genre object as it appears in a TMDB detail response: an id and a
display name. -/
structure Genre where
  id : Nat
  name : String
  deriving DecidableEq, Repr

/-- Embedding of line 115:
`", ".join([g['name'] for g in details.get('genres', [])][:2])` — the first
two genre names of the detail record, joined with a comma and space. -/
def genresString (gs : List Genre) : String :=
  String.intercalate ", " ((gs.map Genre.name).take 2)

/-- The genre names line 115 actually uses: the first two names of the
detail record's own genre objects. -/
def usedGenreNames (gs : List Genre) : List String :=
  (gs.map Genre.name).take 2

/-- Modelled from the spec: the genre-string derivation the spec describes
(section 4.5) — map up to 2 genre identifiers through the boot-time
id-to-name table built by `get_genres` (lines 52-60), unknown ids mapping
to the empty string. Stated for comparison with `genresString`. -/
def genresFromTable (table : List (Nat × String)) (ids : List Nat) : String :=
  String.intercalate ", " ((ids.take 2).map (fun i => (table.lookup i).getD ""))

/-! ## Per-item render decision (`generate_image`, lines 119-120, 204-205,
and the per-item loop of `run`, lines 265-269) -/

/-- The fields of a TMDB detail response that decide whether an item is
rendered and what its output file is named. `backdrop_path` is `None` when
the key is absent; Python's `if not backdrop_path` also treats the empty
string as absent. -/
structure Details where
  backdrop_path : Option String
  genres : List Genre
  deriving DecidableEq, Repr

/-- Python truthiness test `not backdrop_path` (line 120). -/
def backdropMissing (d : Details) : Bool :=
  match d.backdrop_path with
  | none => true
  | some p => p.data.isEmpty

/-- The output filename of line 204: `f"{m_type}_tmdb_{m_id}.jpg"`. -/
def outputFilename (m_type : String) (m_id : Nat) : String :=
  m_type ++ "_tmdb_" ++ toString m_id ++ ".jpg"

/-- Embedding of `generate_image`'s file-producing behaviour: line 120
returns before any compositing or saving when the backdrop reference is
absent, and otherwise the composite is saved under the line-204 name.
Returns `none` exactly when the early return fires. -/
def renderItem (d : Details) (is_movie : Bool) (m_id : Nat) : Option String :=
  if backdropMissing d then none
  else some (outputFilename (if is_movie then "movie" else "tv") m_id)

/-- The per-item loop of `run` (lines 265-269): each item is rendered
inside its own try, so one item's skip never stops the batch. The output
files of a batch are the successful renders in order. -/
def runBatch (items : List (Details × Bool × Nat)) : List String :=
  items.filterMap (fun it => renderItem it.1 it.2.1 it.2.2)

/-! ## Manifest generation (`generate_api_json`, lines 207-220) -/

/-- Split a character list at the LAST occurrence of `c`: the part before
and the part after, or `none` when `c` does not occur. -/
def splitAtLastChar (c : Char) : List Char → Option (List Char × List Char)
  | [] => none
  | a :: as =>
    match splitAtLastChar c as with
    | some (p, s) => some (a :: p, s)
    | none => if a = c then some ([], as) else none

/-- Embedding of `os.path.splitext(filename)[0]` for a bare filename (no
directory separators): strip the extension at the last dot, unless every
character before that dot is itself a dot (CPython's leading-dot rule, so
`".jpg"` keeps its full name). -/
def pySplitextRoot (l : List Char) : List Char :=
  match splitAtLastChar '.' l with
  | some (p, _) => if p.all (· = '.') then l else p
  | none => l

/-- Embedding of lines 213-215: `last_u = name.rfind('_')` followed by
`f"{name[:last_u]}:{name[last_u+1:]}"`. When an underscore occurs the name
splits around its last occurrence; when none occurs `rfind` returns `-1`,
so `name[:-1]` drops the final character and `name[0:]` is the whole name. -/
def actionUrlOfName (name : List Char) : List Char :=
  match splitAtLastChar '_' name with
  | some (p, s) => p ++ ':' :: s
  | none => name.dropLast ++ ':' :: name

/-- Modelled from the spec: the actionUrl derivation the spec describes —
"splitting the extension-stripped name at its last underscore and joining
the two parts with a colon". `url` is such a split of `name` when `name`
has a last underscore and `url` is the part before it, a colon, and the
part after it; a name containing no underscore has no last underscore to
split at, so no `url` qualifies. Stated for comparison with
`actionUrlOfName`. -/
def isLastUnderscoreSplitOf (url name : List Char) : Bool :=
  match splitAtLastChar '_' name with
  | some (p, s) => url = p ++ ':' :: s
  | none => false

/-- One manifest record (lines 214-218). -/
structure ApiRecord where
  actionUrl : String
  imageUrl : String
  title : String
  deriving DecidableEq, Repr

/-- Build the manifest record for one filename (lines 212-218). -/
def mkApiRecord (filename : String) : ApiRecord :=
  let name := pySplitextRoot filename.data
  { actionUrl := String.mk (actionUrlOfName name)
    imageUrl := BASE_URL_FOR_API ++ "/" ++ BACKGROUND_DIR ++ "/" ++ filename
    title := String.mk name }

/-- Embedding of `generate_api_json` (lines 207-220) as a function of the
output directory listing: sort the filenames (`sorted(os.listdir(...))`),
keep those ending in `".jpg"`, and emit one record each. The manifest is
opened with mode `"w"` and `api_data` starts empty, so the result depends
only on the listing. -/
def generate_api_json (listing : List String) : List ApiRecord :=
  ((listing.mergeSort (fun a b => decide (a ≤ b))).filter
    (fun f => List.isSuffixOf ".jpg".data f.data)).map mkApiRecord

/-- One batch-plus-manifest step over the persistent state
(directory listing, current manifest contents): `run` renders its items
into the directory and then rewrites `api.json` from scratch (line 271). -/
def manifestStep (listing : List String) (oldManifest : List ApiRecord) :
    List ApiRecord :=
  let _ := oldManifest
  generate_api_json listing

/-! ## Service table and discovery strategy (`SERVICES`, lines 38-50, and
`run`, lines 222-245) -/

/-- One entry of the `SERVICES` dict: TMDB network/company id (absent for
the query-less strategies, where Python stores `None`), the strategy tag
string, and the brand logo filename. -/
structure Service where
  id : Option Nat
  type : String
  logo : String
  deriving DecidableEq, Repr

/-- The `SERVICES` configuration table (lines 38-50). -/
def SERVICES : List (String × Service) :=
  [("netflix", ⟨some 213, "network", "netflix_logo.png"⟩),
   ("disney", ⟨some 2739, "network", "disney-logo.png"⟩),
   ("amazon", ⟨some 1024, "network", "amazon.png"⟩),
   ("apple", ⟨some 2552, "network", "apple.png"⟩),
   ("peacock", ⟨some 3353, "network", "peacock.png"⟩),
   ("paramount", ⟨some 4330, "network", "paramount-logo.png"⟩),
   ("trending", ⟨none, "trending", "tmdblogo.png"⟩),
   ("crunchyroll", ⟨some 1112, "network", "crunchyroll.png"⟩),
   ("anime_popular", ⟨none, "anime", "tmdblogo.png"⟩),
   ("anime_new", ⟨none, "anime", "tmdblogo.png"⟩),
   ("trakt", ⟨none, "trakt", "traktlogo.png"⟩)]

/-- `SERVICES.get(service_key, SERVICES["trending"])` (lines 110 and 223):
dictionary lookup with the trending entry as the default. -/
def servicesGet (service_key : String) : Service :=
  (SERVICES.lookup service_key).getD ⟨none, "trending", "tmdblogo.png"⟩

/-- Python's `sub in hay` substring test on character lists. -/
def containsSubstr (sub : List Char) : List Char → Bool
  | [] => sub.isEmpty
  | a :: as => sub.isPrefixOf (a :: as) || containsSubstr sub as

/-- Python `str.lower`, modelled character-wise (the service keys are
ASCII). -/
def pyLower (s : String) : String := String.mk (s.data.map Char.toLower)

/-- Render an optional id the way a Python f-string renders it
(`None` for the absent case). -/
def idString : Option Nat → String
  | some n => toString n
  | none => "None"

/-- Embedding of the discovery-URL construction of `run` (lines 226-245),
with the wall-clock cutoff date passed in as `date_min`. The three branches
are: keys equal to `"crunchyroll"` or containing `"anime"`
(case-insensitive) get the anime query; services whose table entry is of
type `"network"` get the network/company query; everything else falls
through to the trending endpoint. -/
def discoverUrl (service_key : String) (is_movie : Bool) (svc : Service)
    (is_new_release : Bool) (date_min : String) : String :=
  let m_type := if is_movie then "movie" else "tv"
  let base := TMDB_BASE_URL ++ "/discover/" ++ m_type ++
    "?include_adult=false&language=en-US&sort_by=popularity.desc"
  if service_key = "crunchyroll" || containsSubstr "anime".data (pyLower service_key).data then
    let base := base ++ "&with_genres=16&with_original_language=ja"
    let base := if service_key = "crunchyroll" && !is_movie then
        base ++ "&with_networks=" ++ idString svc.id
      else base
    if is_new_release then
      let p := if is_movie then "primary_release_date.gte" else "first_air_date.gte"
      base ++ "&" ++ p ++ "=" ++ date_min
    else base
  else if svc.type = "network" then
    let param := if is_movie then "with_companies" else "with_networks"
    let base := base ++ "&" ++ param ++ "=" ++ idString svc.id
    if is_new_release then
      let p := if is_movie then "primary_release_date.gte" else "first_air_date.gte"
      base ++ "&" ++ p ++ "=" ++ date_min
    else base
  else
    TMDB_BASE_URL ++ "/trending/" ++ m_type ++ "/week"

/-- The URL the trending strategy produces (the final else of line 245). -/
def trendingUrl (is_movie : Bool) : String :=
  TMDB_BASE_URL ++ "/trending/" ++ (if is_movie then "movie" else "tv") ++ "/week"

/-! ## Helper lemmas -/

/-- Measuring does not change how many lines there are. -/
theorem measureLines_isEmpty (measure : Nat → String → Nat × Nat) (size : Nat)
    (lines : List String) : (measureLines measure size lines).isEmpty = lines.isEmpty := by
  cases lines <;> rfl

/-- If no candidate size passes the acceptance test and wrapping never
returns an empty line list, the while loop runs off the floor and draws
nothing, from any starting size. -/
theorem shrinkLoop_no_fit (measure : Nat → String → Nat × Nat)
    (wrap : Nat → String → List String) (is_cjk : Bool) (d : String)
    (hnofit : ∀ s, fitsAt measure wrap is_cjk d s = false)
    (hwrap : ∀ v, (wrap v d).isEmpty = false) :
    ∀ size, shrinkLoop measure wrap is_cjk d size = TitleFit.notDrawn := by
  intro size
  induction size using Nat.strong_induction_on with
  | _ size ih =>
    rw [shrinkLoop]
    split
    · have hne : (candidateLines measure wrap is_cjk d size).isEmpty = false := by
        rw [candidateLines, measureLines_isEmpty]
        exact hwrap _
      have hbud : budgetsOk (candidateLines measure wrap is_cjk d size) = false := by
        have hf := hnofit size
        rw [fitsAt, hne] at hf
        simpa using hf
      rw [hne, hbud]
      simp only [Bool.false_eq_true, if_false]
      exact ih (size - 20) (by omega)
    · rfl

/-- The fuel-indexed loop agrees with the loop whenever the fuel dominates
the starting size: the source's while loop terminates within
`size / 20 + 1` iterations. -/
theorem shrinkLoopFuel_eq_shrinkLoop (measure : Nat → String → Nat × Nat)
    (wrap : Nat → String → List String) (is_cjk : Bool) (d : String) :
    ∀ fuel size, size < 20 * fuel →
      shrinkLoopFuel measure wrap is_cjk d fuel size =
        some (shrinkLoop measure wrap is_cjk d size) := by
  intro fuel
  induction fuel with
  | zero => intro size h; omega
  | succ n ih =>
    intro size h
    rw [shrinkLoop, shrinkLoopFuel]
    by_cases h80 : size > 80
    · rw [dif_pos h80, if_pos h80]
      by_cases hemp : (candidateLines measure wrap is_cjk d size).isEmpty = true
      · rw [hemp]; rfl
      · rw [Bool.not_eq_true] at hemp
        rw [hemp]
        by_cases hbud : budgetsOk (candidateLines measure wrap is_cjk d size) = true
        · rw [hbud]; rfl
        · rw [Bool.not_eq_true] at hbud
          rw [hbud]
          simp only [Bool.false_eq_true, if_false]
          exact ih (size - 20) (by omega)
    · rw [dif_neg h80, if_neg h80]

/-- The starting size of the search is at most 350. -/
theorem initial_font_size_le (title : String) : initial_font_size title ≤ 350 := by
  rw [initial_font_size]
  split <;> omega

/-- If `splitAtLastChar` finds no occurrence, the character is not in the
list. -/
theorem splitAtLastChar_none {c : Char} :
    ∀ {l : List Char}, splitAtLastChar c l = none → c ∉ l := by
  intro l
  induction l with
  | nil => intro _ h; simp at h
  | cons a as ih =>
    intro h
    rw [splitAtLastChar] at h
    cases hrec : splitAtLastChar c as with
    | some ps => rw [hrec] at h; simp at h
    | none =>
      rw [hrec] at h
      have hac : ¬ a = c := by
        intro hc
        rw [if_pos hc] at h
        simp at h
      intro hmem
      rcases List.mem_cons.mp hmem with h1 | h2
      · exact hac h1.symm
      · exact ih hrec h2

/-- If `splitAtLastChar` splits, it splits around the LAST occurrence: the
list is the part before, the character, the part after, and the part after
is free of the character. -/
theorem splitAtLastChar_some {c : Char} :
    ∀ {l p s : List Char}, splitAtLastChar c l = some (p, s) →
      l = p ++ c :: s ∧ c ∉ s := by
  intro l
  induction l with
  | nil => intro p s h; simp [splitAtLastChar] at h
  | cons a as ih =>
    intro p s h
    rw [splitAtLastChar] at h
    cases hrec : splitAtLastChar c as with
    | some ps =>
      obtain ⟨p', s'⟩ := ps
      rw [hrec] at h
      simp only [Option.some.injEq, Prod.mk.injEq] at h
      obtain ⟨hp, hs⟩ := h
      obtain ⟨h1, h2⟩ := ih hrec
      subst hp; subst hs
      exact ⟨by rw [List.cons_append, ← h1], h2⟩
    | none =>
      rw [hrec] at h
      by_cases hac : a = c
      · rw [if_pos hac] at h
        simp only [Option.some.injEq, Prod.mk.injEq] at h
        obtain ⟨hp, hs⟩ := h
        subst hp; subst hs; subst hac
        exact ⟨rfl, splitAtLastChar_none hrec⟩
      · rw [if_neg hac] at h
        simp at h

/-! ## Claim theorems -/

/-- C2 counterexample: the Hiragana letter U+3042 lies in the Hiragana
block, so the claim demands the fallback face for a text containing it
(the fallback being available), but `get_font` tests `ord(c) > 0x4e00` and
U+3042 is below that threshold, so the style-selected primary face is
returned instead. -/
theorem font_fallback_hiragana_counterexample :
    inCjkBlocks 'あ' = true ∧
    ('あ').toNat = 0x3042 ∧
    get_font true 70 "あ" false = (FontFace.bodyFace, 70) ∧
    get_font true 300 "あ" true = (FontFace.titleFace, 300) := by
  exact ⟨by decide, by decide, by decide, by decide⟩

/-- C2 (amended): the font resolver returns the fallback face (when its
file is available) exactly when the sample text contains a character with
code point strictly above 0x4e00 — not the Han/Hiragana/Katakana/Hangul
block membership the claim states — and otherwise returns the
style-selected primary face at the requested size. -/
theorem font_fallback_threshold_amended (avail : Bool) (size : Nat) (text : String)
    (is_title : Bool) :
    ((get_font avail size text is_title).1 = FontFace.fallbackFace ↔
      text.data.any aboveCjkThreshold = true ∧ avail = true) ∧
    (get_font avail size text is_title).2 = size ∧
    (get_font avail size text is_title).1 =
      (if text.data.any aboveCjkThreshold && avail then FontFace.fallbackFace
       else if is_title then FontFace.titleFace else FontFace.bodyFace) := by
  cases avail <;> cases is_title <;> cases h : text.data.any aboveCjkThreshold <;>
    simp [get_font, h]

/-- C3 counterexample: a 33x9 source is wider than 16:9, and the crop takes
an 8-pixel margin off the left but a 9-pixel margin off the right, so the
cropping is not symmetric about the image center as the claim states. -/
theorem aspect_fill_odd_margin_counterexample :
    9 * 33 > 16 * 9 ∧
    aspectCrop 33 9 = ⟨8, 0, 24, 9⟩ ∧
    leftMargin 33 9 = 8 ∧
    rightMargin 33 9 = 9 ∧
    ¬ leftMargin 33 9 = rightMargin 33 9 := by
  exact ⟨by decide, by decide, by decide, by decide, by decide⟩

/-- C3 (amended): for every source of positive width and height the
composed base is exactly canvas-sized; the wider-than-16:9 case crops at
full source height and the other case at full source width, with the two
margins on the cropped axis equal when their total is even and differing
by exactly one pixel (floor on the leading side) when it is odd. -/
theorem aspect_fill_crop_amended (w h : Nat) (hw : 0 < w) (hh : 0 < h) :
    composeBaseSize w h = (CANVAS_W, CANVAS_H) ∧
    (9 * w > 16 * h →
      topMargin w h = 0 ∧ bottomMargin w h = 0 ∧
      (aspectCrop w h).right - (aspectCrop w h).left = 16 * h / 9 ∧
      leftMargin w h + 16 * h / 9 + rightMargin w h = w ∧
      rightMargin w h = leftMargin w h + (w - 16 * h / 9) % 2) ∧
    (¬ 9 * w > 16 * h →
      leftMargin w h = 0 ∧ rightMargin w h = 0 ∧
      (aspectCrop w h).lower - (aspectCrop w h).upper = 9 * w / 16 ∧
      topMargin w h + 9 * w / 16 + bottomMargin w h = h ∧
      bottomMargin w h = topMargin w h + (h - 9 * w / 16) % 2) := by
  refine ⟨rfl, ?_, ?_⟩
  · intro hcmp
    unfold topMargin bottomMargin leftMargin rightMargin aspectCrop
    rw [if_pos hcmp]
    dsimp only
    omega
  · intro hcmp
    unfold topMargin bottomMargin leftMargin rightMargin aspectCrop
    rw [if_neg hcmp]
    dsimp only
    omega

/-- C3 witness: the amended statement evaluated on a 100x50 source (wider
than 16:9, even margin total: both margins are 6). -/
theorem aspect_fill_crop_witness :
    composeBaseSize 100 50 = (CANVAS_W, CANVAS_H) ∧
    (9 * 100 > 16 * 50 →
      topMargin 100 50 = 0 ∧ bottomMargin 100 50 = 0 ∧
      (aspectCrop 100 50).right - (aspectCrop 100 50).left = 16 * 50 / 9 ∧
      leftMargin 100 50 + 16 * 50 / 9 + rightMargin 100 50 = 100 ∧
      rightMargin 100 50 = leftMargin 100 50 + (100 - 16 * 50 / 9) % 2) ∧
    (¬ 9 * 100 > 16 * 50 →
      leftMargin 100 50 = 0 ∧ rightMargin 100 50 = 0 ∧
      (aspectCrop 100 50).lower - (aspectCrop 100 50).upper = 9 * 100 / 16 ∧
      topMargin 100 50 + 9 * 100 / 16 + bottomMargin 100 50 = 50 ∧
      bottomMargin 100 50 = topMargin 100 50 + (50 - 9 * 100 / 16) % 2) :=
  aspect_fill_crop_amended 100 50 (by decide) (by decide)

/-- C4: the clamp of line 187 forces the vertical cursor at which the info
line starts to be at least `initialY + maxTitleBoxHeight + fixedGap`,
i.e. at least 480 + 500 + 20 = 1000, whatever cursor value the title block
(logo path, text path, or neither) produced. -/
theorem info_line_floor_confirmed (y_after_title : Nat) :
    INITIAL_Y + MAX_TITLE_H + 20 = 1000 ∧
    1000 ≤ infoLineStartY y_after_title ∧
    INITIAL_Y + MAX_TITLE_H + 20 ≤ infoLineStartY y_after_title := by
  refine ⟨rfl, ?_, ?_⟩ <;>
    simp only [infoLineStartY, INITIAL_Y, MAX_TITLE_H] <;> omega

/-- C5 counterexample: for the filename `abc.jpg` the extension-stripped
name `abc` contains no underscore, so there is no last-underscore split of
it; the code's `rfind` returns `-1` and the emitted actionUrl is `ab:abc`
(the name minus its final character, a colon, then the whole name), which
is not a split of `abc` at any underscore. -/
theorem action_url_no_separator_counterexample :
    (mkApiRecord "abc.jpg").actionUrl = "ab:abc" ∧
    splitAtLastChar '_' "abc".data = none ∧
    isLastUnderscoreSplitOf "ab:abc".data "abc".data = false ∧
    actionUrlOfName "abc".data = "abc".data.dropLast ++ ':' :: "abc".data := by
  exact ⟨by decide, by decide, by decide, by decide⟩

/-- C5 (amended): for every extension-stripped name that contains at least
one underscore, the actionUrl is the name split at its LAST underscore with
the two parts joined by a colon (so `movie_tmdb_12345` gives
`movie_tmdb:12345`, also when the id part has no further separator); for a
name with no underscore the code instead emits the name minus its final
character, a colon, and the whole name. -/
theorem action_url_split_amended (name : List Char) (hmem : '_' ∈ name) :
    ∃ p s, name = p ++ '_' :: s ∧ '_' ∉ s ∧ actionUrlOfName name = p ++ ':' :: s := by
  cases hsplit : splitAtLastChar '_' name with
  | none => exact absurd hmem (splitAtLastChar_none hsplit)
  | some ps =>
    obtain ⟨p, s⟩ := ps
    obtain ⟨h1, h2⟩ := splitAtLastChar_some hsplit
    refine ⟨p, s, h1, h2, ?_⟩
    unfold actionUrlOfName
    rw [hsplit]

/-- C5 witness: the amended statement evaluated on the spec's own example
name `movie_tmdb_12345`. -/
theorem action_url_split_witness :
    ('_' ∈ "movie_tmdb_12345".data) ∧
    ∃ p s, "movie_tmdb_12345".data = p ++ '_' :: s ∧ '_' ∉ s ∧
      actionUrlOfName "movie_tmdb_12345".data = p ++ ':' :: s :=
  ⟨by decide, action_url_split_amended "movie_tmdb_12345".data (by decide)⟩

/-- C6: an item whose detail record carries no backdrop reference is
skipped by the early return of line 120 before any compositing or saving:
it produces no output file, the batch output over the remaining items is
unchanged, and the regenerated manifest therefore has no entry for it. -/
theorem missing_backdrop_skip_confirmed (d : Details) (is_movie : Bool) (m_id : Nat)
    (rest : List (Details × Bool × Nat)) (h : d.backdrop_path = none) :
    renderItem d is_movie m_id = none ∧
    runBatch ((d, is_movie, m_id) :: rest) = runBatch rest ∧
    generate_api_json (runBatch ((d, is_movie, m_id) :: rest)) =
      generate_api_json (runBatch rest) := by
  have hmiss : backdropMissing d = true := by simp [backdropMissing, h]
  have h1 : renderItem d is_movie m_id = none := by simp [renderItem, hmiss]
  have h2 : runBatch ((d, is_movie, m_id) :: rest) = runBatch rest := by
    simp [runBatch, List.filterMap_cons, h1]
  exact ⟨h1, h2, by rw [h2]⟩

/-- C6 witness: the skip evaluated on a concrete backdrop-less item in a
batch of its own. -/
theorem missing_backdrop_skip_witness :
    renderItem ⟨none, []⟩ true 42 = none ∧
    runBatch [(⟨none, []⟩, true, 42)] = runBatch [] ∧
    generate_api_json (runBatch [(⟨none, []⟩, true, 42)]) =
      generate_api_json (runBatch []) :=
  missing_backdrop_skip_confirmed ⟨none, []⟩ true 42 [] rfl

/-- C7 counterexample: line 115 joins the genre NAMES carried by the detail
record itself and never consults the boot-time id-to-name table: a genre
object with id 999 and name `Drama` renders as `Drama` even when the table
is empty, whereas the claim's table-mapped derivation (unknown ids map to
the empty string) yields the empty string. -/
theorem genre_table_unused_counterexample :
    genresString [⟨999, "Drama"⟩] = "Drama" ∧
    genresFromTable [] [999] = "" ∧
    ¬ genresString [⟨999, "Drama"⟩] = genresFromTable [] [999] := by
  exact ⟨by decide, by decide, by decide⟩

/-- C7 (amended): the rendered genre string is the comma-join of the first
at-most-2 genre names taken directly from the item's detail record (the
boot-time id-to-name lookup table is not consulted); in particular the info
line contains at most 2 genre names, each taken from the record's own
genre list. -/
theorem genre_mapping_amended (gs : List Genre) :
    genresString gs = String.intercalate ", " (usedGenreNames gs) ∧
    (usedGenreNames gs).length ≤ 2 ∧
    List.Sublist (usedGenreNames gs) (gs.map Genre.name) := by
  refine ⟨rfl, ?_, ?_⟩
  · simp only [usedGenreNames, List.length_take]
    omega
  · exact List.take_sublist _ _

/-- C8: manifest generation is an idempotent full-replace operation: the
step ignores the previous manifest contents entirely, running it twice on
an unchanged directory yields identical output (so the serialized file is
byte-identical), and the manifest holds exactly one record per `.jpg` file
currently present, in sorted filename order. -/
theorem manifest_full_replace_confirmed (listing : List String)
    (old1 old2 : List ApiRecord) :
    manifestStep listing (manifestStep listing old1) = manifestStep listing old1 ∧
    manifestStep listing old1 = manifestStep listing old2 ∧
    (manifestStep listing old1).length =
      (listing.filter (fun f => List.isSuffixOf ".jpg".data f.data)).length ∧
    (manifestStep listing old1).map ApiRecord.imageUrl =
      ((listing.mergeSort (fun a b => decide (a ≤ b))).filter
        (fun f => List.isSuffixOf ".jpg".data f.data)).map
        (fun f => BASE_URL_FOR_API ++ "/" ++ BACKGROUND_DIR ++ "/" ++ f) := by
  refine ⟨rfl, rfl, ?_, ?_⟩
  · have hperm := (List.mergeSort_perm listing (fun a b => decide (a ≤ b))).filter
      (fun f => List.isSuffixOf ".jpg".data f.data)
    simpa [manifestStep, generate_api_json, List.length_map] using hperm.length_eq
  · simp only [manifestStep, generate_api_json, List.map_map]
    rfl

/-- C9 counterexample: the unknown service key `anime_channel` is absent
from the table and does get the trending service configuration (TMDB brand
logo) substituted, but because the key contains `anime` the discovery query
is the genre-filtered anime discover URL, not the trending query the claim
states. -/
theorem unknown_anime_key_counterexample :
    SERVICES.lookup "anime_channel" = none ∧
    servicesGet "anime_channel" = ⟨none, "trending", "tmdblogo.png"⟩ ∧
    containsSubstr "anime".data (pyLower "anime_channel").data = true ∧
    discoverUrl "anime_channel" false (servicesGet "anime_channel") false "" =
      "https://api.themoviedb.org/3/discover/tv?include_adult=false&language=en-US&sort_by=popularity.desc&with_genres=16&with_original_language=ja" ∧
    ¬ discoverUrl "anime_channel" false (servicesGet "anime_channel") false "" =
      trendingUrl false := by
  exact ⟨by decide, by decide, by decide, by decide, by decide⟩

/-- C9 (amended): a service key absent from the table silently gets the
trending service configuration (trending entry, TMDB brand logo) for header
rendering, and the discovery query falls through to the trending endpoint —
unless the unknown key contains `anime` case-insensitively, in which case
the anime discovery strategy is used instead (see the counterexample). -/
theorem unknown_service_fallback_amended (key : String)
    (hkey : SERVICES.lookup key = none) :
    servicesGet key = ⟨none, "trending", "tmdblogo.png"⟩ ∧
    (containsSubstr "anime".data (pyLower key).data = false →
      ∀ is_movie is_new_release date_min,
        discoverUrl key is_movie (servicesGet key) is_new_release date_min =
          trendingUrl is_movie) := by
  have hsvc : servicesGet key = ⟨none, "trending", "tmdblogo.png"⟩ := by
    rw [servicesGet, hkey]; rfl
  refine ⟨hsvc, ?_⟩
  intro hanime is_movie is_new_release date_min
  have hck : ¬ key = "crunchyroll" := by
    intro hc
    subst hc
    simp [SERVICES, List.lookup] at hkey
  simp [discoverUrl, hsvc, hanime, hck, trendingUrl]

/-- C9 witness: the amended statement evaluated on the unknown key `hulu`,
which contains no `anime` substring: it gets the trending configuration and
the trending query. -/
theorem unknown_service_fallback_witness :
    servicesGet "hulu" = ⟨none, "trending", "tmdblogo.png"⟩ ∧
    discoverUrl "hulu" true (servicesGet "hulu") false "2024-01-01" = trendingUrl true := by
  have H := unknown_service_fallback_amended "hulu" (by decide)
  exact ⟨H.1, H.2 (by decide) true false "2024-01-01"⟩

/-- C10: in the text-fallback path, a title with no character above the CJK
threshold is uppercased and starts the shrink search at 350, while a title
containing such a character is kept unchanged and starts at 250; the path
is exactly the shrink loop run on that display title and starting size. -/
theorem title_case_and_start_size_confirmed (measure : Nat → String → Nat × Nat)
    (wrap : Nat → String → List String) (title : String) :
    is_cjk_of title = title.data.any aboveCjkThreshold ∧
    display_title_of title = (if is_cjk_of title then title else pyUpper title) ∧
    initial_font_size title = (if is_cjk_of title then 250 else 350) ∧
    layoutTitleText measure wrap title =
      shrinkLoop measure wrap (is_cjk_of title) (display_title_of title)
        (initial_font_size title) :=
  ⟨rfl, rfl, rfl, rfl⟩

/-- C1 counterexample: with metrics under which no candidate size fits (every
line measures 4000px wide against the 3072px budget, including at the
floor-adjacent size 90), the loop terminates but draws NOTHING — the title
is omitted — whereas the claim states the smallest attempted size's
geometry is accepted and rendered. -/
theorem title_search_floor_not_drawn :
    layoutTitleText (fun _ _ => (4000, 600)) (fun _ s => [s]) "VERYLONGTITLE" =
      TitleFit.notDrawn ∧
    wasDrawn (layoutTitleText (fun _ _ => (4000, 600)) (fun _ s => [s]) "VERYLONGTITLE") =
      false ∧
    fitsAt (fun _ _ => (4000, 600)) (fun _ s => [s]) false (pyUpper "VERYLONGTITLE") 90 =
      false := by
  have h := shrinkLoop_no_fit (fun _ _ => (4000, 600)) (fun _ s => [s]) false
    (pyUpper "VERYLONGTITLE") (fun _ => rfl) (fun _ => rfl) 350
  refine ⟨h, ?_, rfl⟩
  have h2 : layoutTitleText (fun _ _ => (4000, 600)) (fun _ s => [s]) "VERYLONGTITLE" =
      TitleFit.notDrawn := h
  rw [h2]
  rfl

/-- C1 (amended): for every title for which no candidate font size
satisfies both budgets (and wrapping never returns an empty line list), the
shrink search terminates — within 18 iterations from the starting size —
but the engine draws NOTHING: the title block is omitted, and the line-187
clamp then starts the info line exactly at the 1000px floor. -/
theorem title_search_exhaustion_amended (measure : Nat → String → Nat × Nat)
    (wrap : Nat → String → List String) (title : String)
    (hnofit : ∀ s, fitsAt measure wrap (is_cjk_of title) (display_title_of title) s = false)
    (hwrap : ∀ v, (wrap v (display_title_of title)).isEmpty = false) :
    layoutTitleText measure wrap title = TitleFit.notDrawn ∧
    shrinkLoopFuel measure wrap (is_cjk_of title) (display_title_of title) 18
      (initial_font_size title) = some TitleFit.notDrawn ∧
    infoLineStartY INITIAL_Y = INITIAL_Y + MAX_TITLE_H + 20 := by
  have h := shrinkLoop_no_fit measure wrap (is_cjk_of title) (display_title_of title)
    hnofit hwrap (initial_font_size title)
  have hlt : initial_font_size title < 20 * 18 := by
    have := initial_font_size_le title
    omega
  refine ⟨h, ?_, by decide⟩
  rw [shrinkLoopFuel_eq_shrinkLoop measure wrap (is_cjk_of title) (display_title_of title)
    18 (initial_font_size title) hlt, h]

/-- C1 witness: the amended statement evaluated on a concrete never-fitting
instance. -/
theorem title_search_exhaustion_witness :
    layoutTitleText (fun _ _ => (4000, 600)) (fun _ s => [s]) "LONGTITLE" =
      TitleFit.notDrawn ∧
    shrinkLoopFuel (fun _ _ => (4000, 600)) (fun _ s => [s]) (is_cjk_of "LONGTITLE")
      (display_title_of "LONGTITLE") 18 (initial_font_size "LONGTITLE") =
      some TitleFit.notDrawn ∧
    infoLineStartY INITIAL_Y = INITIAL_Y + MAX_TITLE_H + 20 :=
  title_search_exhaustion_amended (fun _ _ => (4000, 600)) (fun _ s => [s]) "LONGTITLE"
    (fun _ => rfl) (fun _ => rfl)

end Projectivity
